import Mathlib

/-!
Shallow embedding of the `Bridge_and_relayer_theory-tech` repository:
the two Solidity bridge contracts (`BridgeSourceChain`, `BridgeDestinationChain`),
the `ERC20Mock` token (OpenZeppelin ERC20 v5 + Ownable semantics, restricted to
the entry points this system uses), and the off-chain relayer of
`scripts/relayer.ts` (its two event listeners), together with a small-step
transition system for the deployed system as wired up by `relayer.ts`.

Conventions:
  * addresses are `Nat`; the zero address is `0`;
  * `uint256` values are `Nat`; Solidity 0.8 checked arithmetic reverts on
    overflow, which matters only for `_totalSupply += value` inside `_mint`
    (modelled by an explicit `≤ MAX_UINT256` guard).  The `unchecked` balance
    additions and the `unchecked` supply subtraction in OpenZeppelin's
    `_update` cannot overflow/underflow on any state reachable through the
    ERC20 interface (sum of balances equals `totalSupply`, which the mint
    guard bounds), so they are plain `Nat` arithmetic here;
  * a reverting call is `Except.error msg`; the EVM rolls back all state
    changes of a reverted call, so an `.error` result carries no new state
    and the caller keeps the pre-call state.
-/

abbrev Address : Type := Nat

def MAX_UINT256 : Nat := 2 ^ 256 - 1

/-- Pointwise update of a balance map. -/
def setBal (f : Address → Nat) (a : Address) (v : Nat) : Address → Nat :=
  fun x => if x = a then v else f x

/-- Pointwise update of an allowance map. -/
def setAllow (f : Address → Address → Nat) (o s : Address) (v : Nat) :
    Address → Address → Nat :=
  fun x y => if x = o ∧ y = s then v else f x y

/-- State of one `ERC20Mock` token contract: OpenZeppelin ERC20 storage
(balances, allowances, total supply) plus the `Ownable` owner slot. -/
structure ERC20 where
  balanceOf : Address → Nat
  allowance : Address → Address → Nat
  totalSupply : Nat
  owner : Address

/-- Second half of OpenZeppelin `ERC20._update`: credit `to`, or for `to = 0`
decrease the supply (both `unchecked` in the source; they never overflow on
states reachable through the ERC20 interface). -/
def ERC20.updateTo (tok : ERC20) (toA : Address) (value : Nat) : ERC20 :=
  if toA = 0 then { tok with totalSupply := tok.totalSupply - value }
  else { tok with balanceOf := setBal tok.balanceOf toA (tok.balanceOf toA + value) }

/-- OpenZeppelin `ERC20._update(from, to, value)`: the single balance/supply
mutator.  `from = 0` mints (checked supply addition, reverts on overflow);
a nonzero `from` must have a sufficient balance. -/
def ERC20.update (tok : ERC20) (fromA toA : Address) (value : Nat) :
    Except String ERC20 :=
  if fromA = 0 then
    if tok.totalSupply + value ≤ MAX_UINT256 then
      .ok (ERC20.updateTo { tok with totalSupply := tok.totalSupply + value } toA value)
    else .error "arithmetic overflow"
  else
    if tok.balanceOf fromA < value then .error "ERC20InsufficientBalance"
    else
      .ok (ERC20.updateTo
        { tok with balanceOf := setBal tok.balanceOf fromA (tok.balanceOf fromA - value) }
        toA value)

/-- OpenZeppelin `ERC20._transfer(from, to, value)`: zero-address guards, then
`_update`. -/
def ERC20.transferInternal (tok : ERC20) (fromA toA : Address) (value : Nat) :
    Except String ERC20 :=
  if fromA = 0 then .error "ERC20InvalidSender"
  else if toA = 0 then .error "ERC20InvalidReceiver"
  else tok.update fromA toA value

/-- OpenZeppelin `ERC20.transfer(to, value)`; `sender` is `msg.sender` of the
token call. -/
def ERC20.transfer (tok : ERC20) (sender toA : Address) (value : Nat) :
    Except String ERC20 :=
  tok.transferInternal sender toA value

/-- OpenZeppelin `ERC20._approve(owner, spender, value)` (with the zero-address
guards of the public `approve` path). -/
def ERC20.approveInternal (tok : ERC20) (ownerA spender : Address) (value : Nat) :
    Except String ERC20 :=
  if ownerA = 0 then .error "ERC20InvalidApprover"
  else if spender = 0 then .error "ERC20InvalidSpender"
  else .ok { tok with allowance := setAllow tok.allowance ownerA spender value }

/-- OpenZeppelin `ERC20.approve(spender, value)`; `sender` is `msg.sender`. -/
def ERC20.approve (tok : ERC20) (sender spender : Address) (value : Nat) :
    Except String ERC20 :=
  tok.approveInternal sender spender value

/-- OpenZeppelin `ERC20._spendAllowance(owner, spender, value)`: an allowance
of `2^256 - 1` is treated as infinite and not decremented. -/
def ERC20.spendAllowance (tok : ERC20) (ownerA spender : Address) (value : Nat) :
    Except String ERC20 :=
  if tok.allowance ownerA spender = MAX_UINT256 then
    .ok tok
  else if tok.allowance ownerA spender < value then
    .error "ERC20InsufficientAllowance"
  else
    tok.approveInternal ownerA spender (tok.allowance ownerA spender - value)

/-- OpenZeppelin `ERC20.transferFrom(from, to, value)`; `sender` is
`msg.sender` (the spender). -/
def ERC20.transferFrom (tok : ERC20) (sender fromA toA : Address) (value : Nat) :
    Except String ERC20 :=
  match tok.spendAllowance fromA sender value with
  | .ok tok2 => tok2.transferInternal fromA toA value
  | .error e => .error e

/-- OpenZeppelin `ERC20._mint(to, value)`. -/
def ERC20.mintInternal (tok : ERC20) (toA : Address) (value : Nat) :
    Except String ERC20 :=
  if toA = 0 then .error "ERC20InvalidReceiver"
  else tok.update 0 toA value

/-- OpenZeppelin `ERC20._burn(from, value)`. -/
def ERC20.burnInternal (tok : ERC20) (fromA : Address) (value : Nat) :
    Except String ERC20 :=
  if fromA = 0 then .error "ERC20InvalidSender"
  else tok.update fromA 0 value

/-- `ERC20Mock.mint(to, amount)`: `onlyOwner`, then `_mint(to, amount)`. -/
def ERC20Mock.mint (tok : ERC20) (sender toA : Address) (amount : Nat) :
    Except String ERC20 :=
  if sender = tok.owner then tok.mintInternal toA amount
  else .error "OwnableUnauthorizedAccount"

/-- `ERC20Mock.burnFrom(from, amount)`: `onlyOwner`, then `_burn(from, amount)`.
Note: no allowance is read or written on this path. -/
def ERC20Mock.burnFrom (tok : ERC20) (sender fromA : Address) (amount : Nat) :
    Except String ERC20 :=
  if sender = tok.owner then tok.burnInternal fromA amount
  else .error "OwnableUnauthorizedAccount"

/-- The `TokenLocked(user, amount, destination)` event of `BridgeSourceChain`. -/
structure TokenLocked where
  user : Address
  amount : Nat
  destination : Address
deriving DecidableEq, Repr

/-- The `TokenBurned(user, amount, destination)` event of
`BridgeDestinationChain`. -/
structure TokenBurned where
  user : Address
  amount : Nat
  destination : Address
deriving DecidableEq, Repr

/-- Storage of `BridgeSourceChain`: the configured relayer and the `Ownable`
owner (the immutable `token` address is passed explicitly to the operations
that touch the token). -/
structure BridgeSourceChain where
  relayer : Address
  owner : Address
deriving DecidableEq, Repr

/-- Storage of `BridgeDestinationChain`. -/
structure BridgeDestinationChain where
  relayer : Address
  owner : Address
deriving DecidableEq, Repr

/-- `BridgeSourceChain.setRelayer(newRelayer)`: `onlyOwner`. -/
def BridgeSourceChain.setRelayer (b : BridgeSourceChain) (sender newRelayer : Address) :
    Except String BridgeSourceChain :=
  if sender = b.owner then .ok { b with relayer := newRelayer }
  else .error "OwnableUnauthorizedAccount"

/-- `BridgeSourceChain.lock(amount, destination)`:
`require(amount > 0)`, then `token.transferFrom(msg.sender, address(this),
amount)` (the token sees the bridge contract `bridgeAddr` as spender), then
`emit TokenLocked(msg.sender, amount, destination)`. -/
def BridgeSourceChain.lock (tok : ERC20) (bridgeAddr sender : Address)
    (amount : Nat) (destination : Address) :
    Except String (ERC20 × TokenLocked) :=
  if amount = 0 then .error "BridgeSource: Amount must be greater than 0"
  else
    match tok.transferFrom bridgeAddr sender bridgeAddr amount with
    | .ok tok2 => .ok (tok2, ⟨sender, amount, destination⟩)
    | .error e => .error e

/-- `BridgeSourceChain.release(user, amount)`: `onlyRelayer`,
`require(amount > 0)`, then `token.transfer(user, amount)` (the token sees the
bridge contract as sender). -/
def BridgeSourceChain.release (tok : ERC20) (b : BridgeSourceChain)
    (bridgeAddr sender user : Address) (amount : Nat) :
    Except String ERC20 :=
  if sender ≠ b.relayer then .error "BridgeSource: Caller is not the relayer"
  else if amount = 0 then .error "BridgeSource: Amount must be greater than 0"
  else tok.transfer bridgeAddr user amount

/-- `BridgeDestinationChain.setRelayer(newRelayer)`: `onlyOwner`. -/
def BridgeDestinationChain.setRelayer (b : BridgeDestinationChain)
    (sender newRelayer : Address) : Except String BridgeDestinationChain :=
  if sender = b.owner then .ok { b with relayer := newRelayer }
  else .error "OwnableUnauthorizedAccount"

/-- `BridgeDestinationChain.mintWrapped(user, amount)`: `onlyRelayer`,
`require(amount > 0)`, then `wrappedToken.mint(user, amount)` (the wrapped
token sees the bridge contract `bridgeAddr` as sender). -/
def BridgeDestinationChain.mintWrapped (tok : ERC20) (b : BridgeDestinationChain)
    (bridgeAddr sender user : Address) (amount : Nat) :
    Except String ERC20 :=
  if sender ≠ b.relayer then .error "BridgeDest: Caller is not the relayer"
  else if amount = 0 then .error "BridgeDest: Amount must be greater than 0"
  else ERC20Mock.mint tok bridgeAddr user amount

/-- `BridgeDestinationChain.burn(amount, destination)`:
`require(amount > 0)`, then `wrappedToken.burnFrom(msg.sender, amount)`, then
`emit TokenBurned(msg.sender, amount, destination)`. -/
def BridgeDestinationChain.burn (tok : ERC20) (bridgeAddr sender : Address)
    (amount : Nat) (destination : Address) :
    Except String (ERC20 × TokenBurned) :=
  if amount = 0 then .error "BridgeDest: Amount must be greater than 0"
  else
    match ERC20Mock.burnFrom tok bridgeAddr sender amount with
    | .ok tok2 => .ok (tok2, ⟨sender, amount, destination⟩)
    | .error e => .error e

/-- Decidable test for a reverting call. -/
def Except.isError : Except String α → Bool
  | .error _ => true
  | .ok _ => false

/-!
The deployment performed by `scripts/relayer.ts`: the owner account deploys
both tokens and both bridges, configures the second signer as relayer of both
bridges, and transfers ownership of the wrapped token to the destination
bridge contract.  Concrete distinct addresses stand for the deployed
identities.
-/

def ownerAddr : Address := 10
def relayerAddr : Address := 11
def srcBridgeAddr : Address := 1000
def destBridgeAddr : Address := 1001

/-- A freshly deployed `ERC20Mock`: zero balances, zero allowances, zero
supply, with the given `Ownable` owner. -/
def freshToken (ownerA : Address) : ERC20 :=
  { balanceOf := fun _ => 0, allowance := fun _ _ => 0, totalSupply := 0, owner := ownerA }

/-- One Solidity call the relayer submits to a chain. -/
inductive ChainCall where
  | mintWrapped (user : Address) (amount : Nat)
  | release (user : Address) (amount : Nat)
deriving DecidableEq, Repr

/-- The destination-chain submissions made by the `TokenLocked` listener of
`relayer.ts` for one delivered event: exactly one call,
`destBridge.connect(relayer).mintWrapped(destination, amount)`, whatever its
outcome (the `try`/`catch` performs no second attempt). -/
def lockedListenerCalls (ev : TokenLocked) : List ChainCall :=
  [ChainCall.mintWrapped ev.destination ev.amount]

/-- The source-chain submissions made by the `TokenBurned` listener of
`relayer.ts` for one delivered event: exactly one call,
`sourceBridge.connect(relayer).release(destination, amount)`. -/
def burnedListenerCalls (ev : TokenBurned) : List ChainCall :=
  [ChainCall.release ev.destination ev.amount]

/-- Effect of the `TokenLocked` listener of `relayer.ts` on the wrapped token:
it calls `destBridge.connect(relayer).mintWrapped(destination, amount)`; on
revert the `catch` block only logs, leaving the destination chain unchanged
and keeping no record of the failure. -/
def handleTokenLocked (destTok : ERC20) (db : BridgeDestinationChain)
    (ev : TokenLocked) : ERC20 :=
  match BridgeDestinationChain.mintWrapped destTok db destBridgeAddr relayerAddr
      ev.destination ev.amount with
  | .ok tok => tok
  | .error _ => destTok

/-- Effect of the `TokenBurned` listener of `relayer.ts` on the source token:
it calls `sourceBridge.connect(relayer).release(destination, amount)`; on
revert the `catch` block only logs. -/
def handleTokenBurned (srcTok : ERC20) (sb : BridgeSourceChain)
    (ev : TokenBurned) : ERC20 :=
  match BridgeSourceChain.release srcTok sb srcBridgeAddr relayerAddr
      ev.destination ev.amount with
  | .ok tok => tok
  | .error _ => srcTok

/-!
Small-step semantics of the deployed system: both chains, both bridges, the
append-only per-contract event logs, the delivery queues of the relayer's
`.on` subscriptions, the chain block height, and ghost counters recording the
cumulative amount ever locked on the source chain, the cumulative amount ever
minted on the destination chain, and the cumulative amount of re-delivered
Locked events.  The event channel is at-least-once, never exactly-once: an
emitted event is queued once at emission, and a reconnect or overlapping scan
may re-enqueue any event from the chain's log again (the `rescan` steps), so
a single emitted event can be delivered to the stateless listeners any number
of times.  Users interact through the public entry points; the relayer
account acts only through the two listeners of `relayer.ts` (its key is held
by that process), and the bridge contract addresses never initiate calls of
their own.
-/

/-- Full system state. -/
structure World where
  srcTok : ERC20
  wrapTok : ERC20
  srcBridge : BridgeSourceChain
  destBridge : BridgeDestinationChain
  emittedLocked : List (TokenLocked × Nat)
  emittedBurned : List (TokenBurned × Nat)
  pendingLocked : List (TokenLocked × Nat)
  pendingBurned : List (TokenBurned × Nat)
  currentBlock : Nat
  lockedTotal : Nat
  mintedTotal : Nat
  dupLockedTotal : Nat

/-- The state right after `relayer.ts` finishes its deployment phase. -/
def initialWorld : World :=
  { srcTok := freshToken ownerAddr
    wrapTok := freshToken destBridgeAddr
    srcBridge := { relayer := relayerAddr, owner := ownerAddr }
    destBridge := { relayer := relayerAddr, owner := ownerAddr }
    emittedLocked := []
    emittedBurned := []
    pendingLocked := []
    pendingBurned := []
    currentBlock := 0
    lockedTotal := 0
    mintedTotal := 0
    dupLockedTotal := 0 }

/-- Sum of the amounts of a queue of pending events. -/
def lockedSum (l : List (TokenLocked × Nat)) : Nat :=
  (l.map (fun p => p.1.amount)).sum

/-- One step of the deployed system.  Reverting calls change no state, so only
successful calls appear as steps (a reverted transaction is a stutter).
Deliveries consume the head of the corresponding queue — the subscription
hands events over in emission order — and mirror the listener's `try`/`catch`:
an `Ok` delivery applies the successful destination call, an `Err` delivery
only logs.  No step waits for any confirmation depth: a delivery is enabled as
soon as the event is queued, at any block height.  The `rescan` steps model
the at-least-once channel: a reconnect or overlapping scan re-enqueues an
event from the chain's append-only log for a further delivery, whether or not
it was delivered before; `dupLockedTotal` records the amounts so re-enqueued
on the Locked side. -/
inductive Step : World → World → Prop
  | lock (w : World) (sender : Address) (amount : Nat) (destination : Address)
      (t : ERC20) (ev : TokenLocked)
      (h : BridgeSourceChain.lock w.srcTok srcBridgeAddr sender amount destination
            = .ok (t, ev)) :
      Step w { w with srcTok := t,
                      emittedLocked := w.emittedLocked ++ [(ev, w.currentBlock)],
                      pendingLocked := w.pendingLocked ++ [(ev, w.currentBlock)],
                      lockedTotal := w.lockedTotal + amount }
  | rescanLocked (w : World) (p : TokenLocked × Nat)
      (hp : p ∈ w.emittedLocked) :
      Step w { w with pendingLocked := w.pendingLocked ++ [p],
                      dupLockedTotal := w.dupLockedTotal + p.1.amount }
  | deliverLockedOk (w : World) (ev : TokenLocked) (blk : Nat)
      (rest : List (TokenLocked × Nat)) (t : ERC20)
      (hq : w.pendingLocked = (ev, blk) :: rest)
      (h : BridgeDestinationChain.mintWrapped w.wrapTok w.destBridge destBridgeAddr
            relayerAddr ev.destination ev.amount = .ok t) :
      Step w { w with wrapTok := t,
                      pendingLocked := rest,
                      mintedTotal := w.mintedTotal + ev.amount }
  | deliverLockedErr (w : World) (ev : TokenLocked) (blk : Nat)
      (rest : List (TokenLocked × Nat)) (msg : String)
      (hq : w.pendingLocked = (ev, blk) :: rest)
      (h : BridgeDestinationChain.mintWrapped w.wrapTok w.destBridge destBridgeAddr
            relayerAddr ev.destination ev.amount = .error msg) :
      Step w { w with pendingLocked := rest }
  | burn (w : World) (sender : Address) (amount : Nat) (destination : Address)
      (t : ERC20) (ev : TokenBurned)
      (h : BridgeDestinationChain.burn w.wrapTok destBridgeAddr sender amount destination
            = .ok (t, ev)) :
      Step w { w with wrapTok := t,
                      emittedBurned := w.emittedBurned ++ [(ev, w.currentBlock)],
                      pendingBurned := w.pendingBurned ++ [(ev, w.currentBlock)] }
  | rescanBurned (w : World) (p : TokenBurned × Nat)
      (hp : p ∈ w.emittedBurned) :
      Step w { w with pendingBurned := w.pendingBurned ++ [p] }
  | deliverBurnedOk (w : World) (ev : TokenBurned) (blk : Nat)
      (rest : List (TokenBurned × Nat)) (t : ERC20)
      (hq : w.pendingBurned = (ev, blk) :: rest)
      (h : BridgeSourceChain.release w.srcTok w.srcBridge srcBridgeAddr
            relayerAddr ev.destination ev.amount = .ok t) :
      Step w { w with srcTok := t, pendingBurned := rest }
  | deliverBurnedErr (w : World) (ev : TokenBurned) (blk : Nat)
      (rest : List (TokenBurned × Nat)) (msg : String)
      (hq : w.pendingBurned = (ev, blk) :: rest)
      (h : BridgeSourceChain.release w.srcTok w.srcBridge srcBridgeAddr
            relayerAddr ev.destination ev.amount = .error msg) :
      Step w { w with pendingBurned := rest }
  | srcTransfer (w : World) (sender toA : Address) (value : Nat) (t : ERC20)
      (hs : sender ≠ srcBridgeAddr)
      (h : ERC20.transfer w.srcTok sender toA value = .ok t) :
      Step w { w with srcTok := t }
  | wrapTransfer (w : World) (sender toA : Address) (value : Nat) (t : ERC20)
      (hs : sender ≠ destBridgeAddr)
      (h : ERC20.transfer w.wrapTok sender toA value = .ok t) :
      Step w { w with wrapTok := t }
  | srcApprove (w : World) (sender spender : Address) (value : Nat) (t : ERC20)
      (h : ERC20.approve w.srcTok sender spender value = .ok t) :
      Step w { w with srcTok := t }
  | wrapApprove (w : World) (sender spender : Address) (value : Nat) (t : ERC20)
      (h : ERC20.approve w.wrapTok sender spender value = .ok t) :
      Step w { w with wrapTok := t }
  | srcMint (w : World) (sender toA : Address) (amount : Nat) (t : ERC20)
      (h : ERC20Mock.mint w.srcTok sender toA amount = .ok t) :
      Step w { w with srcTok := t }
  | srcBurnFrom (w : World) (sender fromA : Address) (amount : Nat) (t : ERC20)
      (h : ERC20Mock.burnFrom w.srcTok sender fromA amount = .ok t) :
      Step w { w with srcTok := t }
  | setRelayerSrc (w : World) (sender newRelayer : Address) (b : BridgeSourceChain)
      (h : BridgeSourceChain.setRelayer w.srcBridge sender newRelayer = .ok b) :
      Step w { w with srcBridge := b }
  | setRelayerDest (w : World) (sender newRelayer : Address) (b : BridgeDestinationChain)
      (h : BridgeDestinationChain.setRelayer w.destBridge sender newRelayer = .ok b) :
      Step w { w with destBridge := b }
  | tick (w : World) :
      Step w { w with currentBlock := w.currentBlock + 1 }

/-- Reachability from the freshly deployed system. -/
def Reachable (w : World) : Prop :=
  Relation.ReflTransGen Step initialWorld w

/-- A successful `lock` emits `TokenLocked(msg.sender, amount, destination)`:
in particular the event's amount is the locked amount. -/
theorem lock_ok_event {tok : ERC20} {a s : Address} {amt : Nat} {d : Address}
    {t : ERC20} {ev : TokenLocked}
    (h : BridgeSourceChain.lock tok a s amt d = .ok (t, ev)) :
    ev = ⟨s, amt, d⟩ := by
  by_cases h0 : amt = 0
  · simp [BridgeSourceChain.lock, h0] at h
  · rcases ht : ERC20.transferFrom tok a s a amt with msg | t2 <;>
      simp [BridgeSourceChain.lock, h0, ht] at h
    exact h.2.symm

theorem lockedSum_append (a b : List (TokenLocked × Nat)) :
    lockedSum (a ++ b) = lockedSum a + lockedSum b := by
  simp [lockedSum]

theorem lockedSum_cons (p : TokenLocked × Nat) (l : List (TokenLocked × Nat)) :
    lockedSum (p :: l) = p.1.amount + lockedSum l := by
  simp [lockedSum]

/-- Conservation invariant of the at-least-once pipeline: everything ever
minted, plus everything queued for delivery, is bounded by everything ever
locked plus everything ever re-enqueued by a rescan.  (Without the rescan
term the bound is false of the program: a re-delivered Locked event mints its
amount a second time.) -/
def conservationInv (w : World) : Prop :=
  w.mintedTotal + lockedSum w.pendingLocked ≤ w.lockedTotal + w.dupLockedTotal

theorem conservationInv_step {w w' : World} (hs : Step w w')
    (hi : conservationInv w) : conservationInv w' := by
  cases hs with
  | lock sender amount destination t ev h =>
      have hev : ev = ⟨sender, amount, destination⟩ := lock_ok_event h
      simp only [conservationInv, lockedSum_append] at *
      simp only [hev, lockedSum_cons, lockedSum] at *
      simp at *
      omega
  | rescanLocked p hp =>
      simp only [conservationInv, lockedSum_append] at *
      simp only [lockedSum_cons, lockedSum] at *
      simp at *
      omega
  | deliverLockedOk ev blk rest t hq h =>
      simp only [conservationInv] at *
      rw [hq, lockedSum_cons] at hi
      simp at hi
      omega
  | deliverLockedErr ev blk rest msg hq h =>
      simp only [conservationInv] at *
      rw [hq, lockedSum_cons] at hi
      simp at hi
      omega
  | burn sender amount destination t ev h => exact hi
  | rescanBurned p hp => exact hi
  | deliverBurnedOk ev blk rest t hq h => exact hi
  | deliverBurnedErr ev blk rest msg hq h => exact hi
  | srcTransfer sender toA value t hs h => exact hi
  | wrapTransfer sender toA value t hs h => exact hi
  | srcApprove sender spender value t h => exact hi
  | wrapApprove sender spender value t h => exact hi
  | srcMint sender toA amount t h => exact hi
  | srcBurnFrom sender fromA amount t h => exact hi
  | setRelayerSrc sender newRelayer b h => exact hi
  | setRelayerDest sender newRelayer b h => exact hi
  | tick => exact hi

theorem conservationInv_reachable {w : World} (h : Reachable w) :
    conservationInv w := by
  induction h with
  | refl => simp [conservationInv, initialWorld, lockedSum]
  | tail _ hstep ih => exact conservationInv_step hstep ih

/-!
Success-shape lemmas for the ERC20 entry points, used to evaluate the
scenarios of the specification.
-/

/-- Balance map after moving `v` units from `fromA` to `toA`. -/
def movedBal (bal : Address → Nat) (fromA toA : Address) (v : Nat) : Address → Nat :=
  setBal (setBal bal fromA (bal fromA - v)) toA
    (setBal bal fromA (bal fromA - v) toA + v)

/-- A sufficiently funded `transfer` between nonzero addresses succeeds and
moves exactly `v` units. -/
theorem transfer_ok (tok : ERC20) (fromA toA : Address) (v : Nat)
    (hfrom : fromA ≠ 0) (hto : toA ≠ 0) (hbal : v ≤ tok.balanceOf fromA) :
    ERC20.transfer tok fromA toA v
      = .ok { tok with balanceOf := movedBal tok.balanceOf fromA toA v } := by
  unfold ERC20.transfer ERC20.transferInternal ERC20.update ERC20.updateTo movedBal
  simp [hfrom, hto, Nat.not_lt.mpr hbal]

/-- A sufficiently funded and sufficiently approved `transferFrom` between
nonzero addresses succeeds and moves exactly `v` units; the resulting balance
map, supply and ownership do not depend on whether the allowance was the
infinite sentinel (only the remaining allowance `al` does). -/
theorem transferFrom_ok (tok : ERC20) (sp fromA toA : Address) (v : Nat)
    (hsp : sp ≠ 0) (hfrom : fromA ≠ 0) (hto : toA ≠ 0)
    (hbal : v ≤ tok.balanceOf fromA) (hallow : v ≤ tok.allowance fromA sp) :
    ∃ al, ERC20.transferFrom tok sp fromA toA v
      = .ok { tok with balanceOf := movedBal tok.balanceOf fromA toA v,
                       allowance := al } := by
  by_cases hM : tok.allowance fromA sp = MAX_UINT256
  · have h1 : tok.spendAllowance fromA sp v = .ok tok := by
      simp [ERC20.spendAllowance, hM]
    refine ⟨tok.allowance, ?_⟩
    unfold ERC20.transferFrom
    rw [h1]
    unfold ERC20.transferInternal ERC20.update ERC20.updateTo movedBal
    simp [hfrom, hto, Nat.not_lt.mpr hbal]
  · have h1 : tok.spendAllowance fromA sp v
        = .ok { tok with
            allowance := setAllow tok.allowance fromA sp (tok.allowance fromA sp - v) } := by
      simp [ERC20.spendAllowance, ERC20.approveInternal, hM, hfrom, hsp,
        Nat.not_lt.mpr hallow]
    refine ⟨setAllow tok.allowance fromA sp (tok.allowance fromA sp - v), ?_⟩
    unfold ERC20.transferFrom
    rw [h1]
    unfold ERC20.transferInternal ERC20.update ERC20.updateTo movedBal
    simp [hfrom, hto, Nat.not_lt.mpr hbal]

/-- `mintWrapped` submitted by the configured relayer succeeds when the bridge
owns the wrapped token, the recipient is nonzero, the amount is positive and
the supply does not overflow; it credits exactly `a` to `u`. -/
theorem mintWrapped_ok (t : ERC20) (db : BridgeDestinationChain) (u : Address)
    (a : Nat) (hrel : db.relayer = relayerAddr) (hown : t.owner = destBridgeAddr)
    (hu : u ≠ 0) (ha : a ≠ 0) (hsup : t.totalSupply + a ≤ MAX_UINT256) :
    BridgeDestinationChain.mintWrapped t db destBridgeAddr relayerAddr u a
      = .ok { t with totalSupply := t.totalSupply + a,
                     balanceOf := setBal t.balanceOf u (t.balanceOf u + a) } := by
  unfold BridgeDestinationChain.mintWrapped ERC20Mock.mint ERC20.mintInternal
    ERC20.update ERC20.updateTo
  simp [hrel, hown, hu, ha, hsup]

/-- `release` submitted by the configured relayer succeeds when the bridge
holds enough tokens and the recipient is nonzero; it moves exactly `a` units
from the bridge to `u`. -/
theorem release_ok (t : ERC20) (sb : BridgeSourceChain) (u : Address) (a : Nat)
    (hrel : sb.relayer = relayerAddr) (hu : u ≠ 0) (ha : a ≠ 0)
    (hbal : a ≤ t.balanceOf srcBridgeAddr) :
    BridgeSourceChain.release t sb srcBridgeAddr relayerAddr u a
      = .ok { t with balanceOf := movedBal t.balanceOf srcBridgeAddr u a } := by
  unfold BridgeSourceChain.release
  simp only [hrel, ne_eq, not_true_eq_false, if_false, if_neg ha]
  exact transfer_ok t srcBridgeAddr u a (by decide) hu hbal

/-- `ERC20Mock.burnFrom` called by the token owner on a nonzero, sufficiently
funded account succeeds and debits exactly `a`; the allowance map is untouched
(it appears nowhere in the result). -/
theorem burnFrom_ok (tok : ERC20) (s fromA : Address) (a : Nat)
    (hs : s = tok.owner) (hfrom : fromA ≠ 0) (hbal : a ≤ tok.balanceOf fromA) :
    ERC20Mock.burnFrom tok s fromA a
      = .ok { tok with balanceOf := setBal tok.balanceOf fromA (tok.balanceOf fromA - a),
                       totalSupply := tok.totalSupply - a } := by
  unfold ERC20Mock.burnFrom ERC20.burnInternal ERC20.update ERC20.updateTo
  simp [hs, hfrom, Nat.not_lt.mpr hbal]

/-- `BridgeDestinationChain.burn` succeeds for any nonzero caller holding at
least `a` wrapped tokens, whatever the caller's allowance to the bridge, and
emits `TokenBurned(caller, a, d)`. -/
theorem burn_ok (w : ERC20) (caller : Address) (a : Nat) (d : Address)
    (hown : w.owner = destBridgeAddr) (hc : caller ≠ 0) (ha : a ≠ 0)
    (hbal : a ≤ w.balanceOf caller) :
    BridgeDestinationChain.burn w destBridgeAddr caller a d
      = .ok ({ w with balanceOf := setBal w.balanceOf caller (w.balanceOf caller - a),
                      totalSupply := w.totalSupply - a }, ⟨caller, a, d⟩) := by
  unfold BridgeDestinationChain.burn
  rw [if_neg ha, burnFrom_ok w destBridgeAddr caller a hown.symm hc hbal]

/-- On a successful `mintWrapped`, the `TokenLocked` listener leaves exactly
the minted token state. -/
theorem handleTokenLocked_ok (t : ERC20) (db : BridgeDestinationChain)
    (ev : TokenLocked) (hrel : db.relayer = relayerAddr)
    (hown : t.owner = destBridgeAddr) (hdst : ev.destination ≠ 0)
    (hamt : ev.amount ≠ 0) (hsup : t.totalSupply + ev.amount ≤ MAX_UINT256) :
    handleTokenLocked t db ev
      = { t with totalSupply := t.totalSupply + ev.amount,
                 balanceOf := setBal t.balanceOf ev.destination
                   (t.balanceOf ev.destination + ev.amount) } := by
  unfold handleTokenLocked
  rw [mintWrapped_ok t db ev.destination ev.amount hrel hown hdst hamt hsup]

/-- On a reverting `mintWrapped`, the `TokenLocked` listener leaves the
destination chain untouched. -/
theorem handleTokenLocked_err (t : ERC20) (db : BridgeDestinationChain)
    (ev : TokenLocked) (msg : String)
    (h : BridgeDestinationChain.mintWrapped t db destBridgeAddr relayerAddr
          ev.destination ev.amount = .error msg) :
    handleTokenLocked t db ev = t := by
  unfold handleTokenLocked
  rw [h]

/-- On a successful `release`, the `TokenBurned` listener leaves exactly the
released token state. -/
theorem handleTokenBurned_ok (t : ERC20) (sb : BridgeSourceChain)
    (ev : TokenBurned) (hrel : sb.relayer = relayerAddr)
    (hdst : ev.destination ≠ 0) (hamt : ev.amount ≠ 0)
    (hbal : ev.amount ≤ t.balanceOf srcBridgeAddr) :
    handleTokenBurned t sb ev
      = { t with balanceOf := movedBal t.balanceOf srcBridgeAddr ev.destination ev.amount } := by
  unfold handleTokenBurned
  rw [release_ok t sb ev.destination ev.amount hrel hdst hamt hbal]

/-- On a reverting `release`, the `TokenBurned` listener leaves the source
chain untouched. -/
theorem handleTokenBurned_err (t : ERC20) (sb : BridgeSourceChain)
    (ev : TokenBurned) (msg : String)
    (h : BridgeSourceChain.release t sb srcBridgeAddr relayerAddr
          ev.destination ev.amount = .error msg) :
    handleTokenBurned t sb ev = t := by
  unfold handleTokenBurned
  rw [h]

/-!
A concrete executable run of the deployed system, mirroring
`scripts/user-simulation.ts`: the owner mints 100 source tokens to the user,
the user approves the source bridge and locks 100 with themselves as
destination, and the relayer delivers the resulting `TokenLocked` event — all
within block 0, before any new block is produced.
-/

/-- Extract the successful result of a call known to succeed. -/
def getOk {α : Type} (r : Except String α) (d : α) : α :=
  match r with
  | .ok a => a
  | .error _ => d

def userAddr : Address := 2

def traceTok1 : ERC20 :=
  getOk (ERC20Mock.mint (freshToken ownerAddr) ownerAddr userAddr 100) (freshToken ownerAddr)

def traceW1 : World := { initialWorld with srcTok := traceTok1 }

def traceTok2 : ERC20 :=
  getOk (ERC20.approve traceTok1 userAddr srcBridgeAddr 100) traceTok1

def traceW2 : World := { traceW1 with srcTok := traceTok2 }

def traceLockRes : ERC20 × TokenLocked :=
  getOk (BridgeSourceChain.lock traceTok2 srcBridgeAddr userAddr 100 userAddr)
    (traceTok2, ⟨userAddr, 100, userAddr⟩)

def traceW3 : World :=
  { traceW2 with srcTok := traceLockRes.1,
                 emittedLocked := [(traceLockRes.2, 0)],
                 pendingLocked := [(traceLockRes.2, 0)],
                 lockedTotal := 100 }

def traceWrapTok : ERC20 :=
  getOk (BridgeDestinationChain.mintWrapped traceW3.wrapTok traceW3.destBridge
      destBridgeAddr relayerAddr userAddr 100) traceW3.wrapTok

def traceW4 : World :=
  { traceW3 with wrapTok := traceWrapTok,
                 pendingLocked := [],
                 mintedTotal := 100 }

theorem reachable_traceW3 : Reachable traceW3 := by
  have s1 : Step initialWorld traceW1 :=
    Step.srcMint initialWorld ownerAddr userAddr 100 traceTok1 rfl
  have s2 : Step traceW1 traceW2 :=
    Step.srcApprove traceW1 userAddr srcBridgeAddr 100 traceTok2 rfl
  have s3 : Step traceW2 traceW3 :=
    Step.lock traceW2 userAddr 100 userAddr traceLockRes.1 traceLockRes.2 rfl
  exact Relation.ReflTransGen.tail
    (Relation.ReflTransGen.tail (Relation.ReflTransGen.single s1) s2) s3

/-- The relayer delivers the freshly emitted event while it is zero blocks
deep: this is the `deliverLockedOk` step out of `traceW3`. -/
theorem step_traceW3_traceW4 : Step traceW3 traceW4 :=
  Step.deliverLockedOk traceW3 traceLockRes.2 0 [] traceWrapTok rfl rfl

theorem reachable_traceW4 : Reachable traceW4 :=
  Relation.ReflTransGen.tail reachable_traceW3 step_traceW3_traceW4

/-- Bridge state as deployed by `relayer.ts` (either bridge): relayer is the
second signer, owner the deployer. -/
def sbDeployed : BridgeSourceChain := { relayer := relayerAddr, owner := ownerAddr }

/-- Destination bridge state as deployed by `relayer.ts`. -/
def dbDeployed : BridgeDestinationChain := { relayer := relayerAddr, owner := ownerAddr }

/-- Source token state in which the user holds 100 tokens and has approved the
source bridge for 100, as set up by `user-simulation.ts`. -/
def fundedSrcTok : ERC20 :=
  { freshToken ownerAddr with
      balanceOf := setBal (fun _ => 0) userAddr 100,
      allowance := setAllow (fun _ _ => 0) userAddr srcBridgeAddr 100 }

/-- Wrapped token state after the user received 100 wrapped tokens. -/
def wrappedTok100 : ERC20 :=
  { freshToken destBridgeAddr with
      balanceOf := setBal (fun _ => 0) userAddr 100,
      totalSupply := 100 }

/-- Source token state while 100 tokens sit locked in the source bridge. -/
def lockedSrcTok : ERC20 :=
  { freshToken ownerAddr with
      balanceOf := setBal (fun _ => 0) srcBridgeAddr 100,
      totalSupply := 100 }

/-- A destination bridge whose configured relayer is not the relayer account
driving `relayer.ts` (the relayer-identity-mismatch scenario). -/
def misconfiguredDb : BridgeDestinationChain := { relayer := 5, owner := ownerAddr }

/-- A source bridge whose configured relayer is not the relayer account
driving `relayer.ts`. -/
def misconfiguredSb : BridgeSourceChain := { relayer := 5, owner := ownerAddr }

/-!
Claim theorems.
-/

/-- C1 counterexample: the relayer of `relayer.ts` keeps no record of
processed events, so delivering the same `TokenLocked` event to the listener
twice (as after a reconnect or overlapping scan) executes two successful
`mintWrapped` calls: the user's wrapped balance goes 0 → 100 → 200, and the
second delivery is not a no-op, contradicting the claim that at most one
successful destination action is executed per event. -/
theorem redelivered_event_double_mints :
    (handleTokenLocked (freshToken destBridgeAddr) dbDeployed
        ⟨userAddr, 100, userAddr⟩).balanceOf userAddr = 100 ∧
    (handleTokenLocked (handleTokenLocked (freshToken destBridgeAddr) dbDeployed
        ⟨userAddr, 100, userAddr⟩) dbDeployed
        ⟨userAddr, 100, userAddr⟩).balanceOf userAddr = 200 ∧
    handleTokenLocked (handleTokenLocked (freshToken destBridgeAddr) dbDeployed
        ⟨userAddr, 100, userAddr⟩) dbDeployed ⟨userAddr, 100, userAddr⟩
      ≠ handleTokenLocked (freshToken destBridgeAddr) dbDeployed
        ⟨userAddr, 100, userAddr⟩ :=
  ⟨by decide, by decide,
    fun h => absurd (congrArg (fun t => t.balanceOf userAddr) h) (by decide)⟩

/-- C1 amended: the relay pipeline has no idempotency gate; every delivery of
a Locked event whose `mintWrapped` succeeds executes a destination mint, so an
event delivered twice mints its amount twice. -/
theorem redelivery_mints_again (t : ERC20) (db : BridgeDestinationChain)
    (ev : TokenLocked) (hrel : db.relayer = relayerAddr)
    (hown : t.owner = destBridgeAddr) (hdst : ev.destination ≠ 0)
    (hamt : ev.amount ≠ 0)
    (hsup : t.totalSupply + ev.amount + ev.amount ≤ MAX_UINT256) :
    (handleTokenLocked (handleTokenLocked t db ev) db ev).balanceOf ev.destination
      = t.balanceOf ev.destination + ev.amount + ev.amount := by
  rw [handleTokenLocked_ok t db ev hrel hown hdst hamt (by omega)]
  rw [handleTokenLocked_ok
    { t with totalSupply := t.totalSupply + ev.amount,
             balanceOf := setBal t.balanceOf ev.destination (t.balanceOf ev.destination + ev.amount) }
    db ev hrel hown hdst hamt hsup]
  simp [setBal]

/-- C1 amended witness at a concrete double delivery. -/
theorem redelivery_mints_again_witness :
    (handleTokenLocked (handleTokenLocked (freshToken destBridgeAddr) dbDeployed
        ⟨3, 50, 3⟩) dbDeployed ⟨3, 50, 3⟩).balanceOf 3 = 100 :=
  redelivery_mints_again (freshToken destBridgeAddr) dbDeployed ⟨3, 50, 3⟩
    rfl rfl (by decide) (by decide) (by decide)

/-!
A duplicated delivery of the single lock event of the concrete run: after
`traceW3` the channel rescans the chain log (reconnect/overlapping scan) and
re-enqueues the already queued `TokenLocked` event, and the relayer then
delivers it twice.
-/

def dupW1 : World :=
  { traceW3 with pendingLocked := [(traceLockRes.2, 0), (traceLockRes.2, 0)],
                 dupLockedTotal := 100 }

def dupW2 : World :=
  { dupW1 with wrapTok := traceWrapTok,
               pendingLocked := [(traceLockRes.2, 0)],
               mintedTotal := 100 }

/-- Wrapped token after the second (duplicate) mint of the same event. -/
def dupWrapTok2 : ERC20 :=
  getOk (BridgeDestinationChain.mintWrapped traceWrapTok dupW2.destBridge
      destBridgeAddr relayerAddr userAddr 100) traceWrapTok

def dupW3 : World :=
  { dupW2 with wrapTok := dupWrapTok2,
               pendingLocked := [],
               mintedTotal := 200 }

theorem reachable_dupW3 : Reachable dupW3 := by
  have s4 : Step traceW3 dupW1 :=
    Step.rescanLocked traceW3 (traceLockRes.2, 0) (by decide)
  have s5 : Step dupW1 dupW2 :=
    Step.deliverLockedOk dupW1 traceLockRes.2 0 [(traceLockRes.2, 0)] traceWrapTok rfl rfl
  have s6 : Step dupW2 dupW3 :=
    Step.deliverLockedOk dupW2 traceLockRes.2 0 [] dupWrapTok2 rfl rfl
  exact Relation.ReflTransGen.tail
    (Relation.ReflTransGen.tail (Relation.ReflTransGen.tail reachable_traceW3 s4) s5) s6

/-- C2 counterexample: the event channel is at-least-once, and the pipeline
has no idempotency gate, so after one lock of 100 a reconnect/overlapping
scan re-delivers the same `TokenLocked` event and the relayer mints a second
100: the reachable state `dupW3` has 200 minted (wrapped supply 200) against
only 100 ever locked (the bridge holds 100) — total minted on the
destination exceeds total locked on the source. -/
theorem redelivered_lock_breaks_conservation :
    Reachable dupW3 ∧
    dupW3.mintedTotal = 200 ∧ dupW3.lockedTotal = 100 ∧
    ¬dupW3.mintedTotal ≤ dupW3.lockedTotal ∧
    dupW3.wrapTok.totalSupply = 200 ∧
    dupW3.srcTok.balanceOf srcBridgeAddr = 100 :=
  ⟨reachable_dupW3, rfl, rfl, by decide, by decide, by decide⟩

/-- C2 amended: on every reachable state of the deployed system, the
cumulative amount minted on the destination chain never exceeds the
cumulative amount locked on the source chain plus the cumulative amount of
re-delivered Locked events; in particular, in any run in which the channel
delivers each Locked event exactly once (no rescans), total minted never
exceeds total locked. -/
theorem minted_bounded_by_locked_plus_redelivered (w : World) (hw : Reachable w) :
    w.mintedTotal ≤ w.lockedTotal + w.dupLockedTotal ∧
    (w.dupLockedTotal = 0 → w.mintedTotal ≤ w.lockedTotal) := by
  have h := conservationInv_reachable hw
  unfold conservationInv at h
  exact ⟨by omega, fun h0 => by omega⟩

/-- C2 amended witness: the duplicate-free run reaches 100 minted against 100
locked, and the duplicated run stays within its rescan allowance. -/
theorem minted_bounded_by_locked_plus_redelivered_witness :
    (traceW4.dupLockedTotal = 0 ∧ traceW4.mintedTotal ≤ traceW4.lockedTotal) ∧
    dupW3.mintedTotal ≤ dupW3.lockedTotal + dupW3.dupLockedTotal := by
  obtain ⟨-, h2⟩ := minted_bounded_by_locked_plus_redelivered traceW4 reachable_traceW4
  obtain ⟨h3, -⟩ := minted_bounded_by_locked_plus_redelivered dupW3 reachable_dupW3
  exact ⟨⟨rfl, h2 rfl⟩, h3⟩

/-- C3: `release` and `mintWrapped` revert for every caller other than the
configured relayer (so they succeed only for the relayer; the reverted call
leaves all contract state unchanged, an `.error` result carrying no state),
and `setRelayer` on either bridge succeeds exactly for the contract owner. -/
theorem only_relayer_and_only_owner (t : ERC20) (sb : BridgeSourceChain)
    (db : BridgeDestinationChain) (a c u nr : Address) (amt : Nat) :
    (c ≠ sb.relayer →
      BridgeSourceChain.release t sb a c u amt
        = .error "BridgeSource: Caller is not the relayer") ∧
    (c ≠ db.relayer →
      BridgeDestinationChain.mintWrapped t db a c u amt
        = .error "BridgeDest: Caller is not the relayer") ∧
    (c ≠ sb.owner →
      BridgeSourceChain.setRelayer sb c nr = .error "OwnableUnauthorizedAccount") ∧
    (c = sb.owner →
      BridgeSourceChain.setRelayer sb c nr = .ok { sb with relayer := nr }) ∧
    (c ≠ db.owner →
      BridgeDestinationChain.setRelayer db c nr = .error "OwnableUnauthorizedAccount") ∧
    (c = db.owner →
      BridgeDestinationChain.setRelayer db c nr = .ok { db with relayer := nr }) := by
  refine ⟨fun h => ?_, fun h => ?_, fun h => ?_, fun h => ?_, fun h => ?_, fun h => ?_⟩ <;>
    simp [BridgeSourceChain.release, BridgeDestinationChain.mintWrapped,
      BridgeSourceChain.setRelayer, BridgeDestinationChain.setRelayer, h]

/-- C3 witness: a non-relayer, non-owner caller (address 5) is rejected
everywhere, and the owner may rotate the relayer. -/
theorem only_relayer_and_only_owner_witness :
    BridgeSourceChain.release (freshToken ownerAddr) sbDeployed srcBridgeAddr 5 userAddr 100
      = .error "BridgeSource: Caller is not the relayer" ∧
    BridgeDestinationChain.mintWrapped (freshToken destBridgeAddr) dbDeployed destBridgeAddr 5 userAddr 100
      = .error "BridgeDest: Caller is not the relayer" ∧
    BridgeSourceChain.setRelayer sbDeployed 5 6 = .error "OwnableUnauthorizedAccount" ∧
    BridgeDestinationChain.setRelayer dbDeployed 5 6 = .error "OwnableUnauthorizedAccount" ∧
    BridgeSourceChain.setRelayer sbDeployed ownerAddr 6 = .ok { relayer := 6, owner := ownerAddr } ∧
    BridgeDestinationChain.setRelayer dbDeployed ownerAddr 6 = .ok { relayer := 6, owner := ownerAddr } := by
  obtain ⟨h1, h2, h3, _, h5, _⟩ :=
    only_relayer_and_only_owner (freshToken ownerAddr) sbDeployed dbDeployed srcBridgeAddr 5 userAddr 6 100
  obtain ⟨g1, g2, _, g4, _, g6⟩ :=
    only_relayer_and_only_owner (freshToken destBridgeAddr) sbDeployed dbDeployed destBridgeAddr ownerAddr userAddr 6 100
  exact ⟨h1 (by decide), g2 (by decide), h3 (by decide), h5 (by decide),
    g4 rfl, g6 rfl⟩

/-- C4 counterexample: for the Locked event with `user = 1`,
`destination = 2`, the listener submits `mintWrapped(2, 100)` — the
destination field, not the user field — and the minted balance lands on
address 2 while address 1 receives nothing; the claim that the submitted call
is `mint(user, amount)` for all values of the user and destination fields is
false (symmetrically for `release`). -/
theorem relayer_submits_to_destination_cx :
    lockedListenerCalls ⟨1, 100, 2⟩ ≠ [ChainCall.mintWrapped 1 100] ∧
    burnedListenerCalls ⟨1, 100, 2⟩ ≠ [ChainCall.release 1 100] ∧
    (handleTokenLocked (freshToken destBridgeAddr) dbDeployed ⟨1, 100, 2⟩).balanceOf 1 = 0 ∧
    (handleTokenLocked (freshToken destBridgeAddr) dbDeployed ⟨1, 100, 2⟩).balanceOf 2 = 100 :=
  ⟨by decide, by decide, by decide, by decide⟩

/-- C4 amended: the listener submits `mintWrapped(destination, amount)` for a
Locked event and `release(destination, amount)` for a Burned event — the
event's destination field, not its user field — and a successful mint credits
exactly the destination, leaving a distinct user address untouched. -/
theorem relayer_submits_destination_field (ev : TokenLocked) (bv : TokenBurned)
    (t : ERC20) (db : BridgeDestinationChain)
    (hrel : db.relayer = relayerAddr) (hown : t.owner = destBridgeAddr)
    (hdst : ev.destination ≠ 0) (hamt : ev.amount ≠ 0)
    (hsup : t.totalSupply + ev.amount ≤ MAX_UINT256) :
    lockedListenerCalls ev = [ChainCall.mintWrapped ev.destination ev.amount] ∧
    burnedListenerCalls bv = [ChainCall.release bv.destination bv.amount] ∧
    (handleTokenLocked t db ev).balanceOf ev.destination
      = t.balanceOf ev.destination + ev.amount ∧
    (ev.user ≠ ev.destination →
      (handleTokenLocked t db ev).balanceOf ev.user = t.balanceOf ev.user) := by
  refine ⟨rfl, rfl, ?_, fun hne => ?_⟩
  · rw [handleTokenLocked_ok t db ev hrel hown hdst hamt hsup]
    simp [setBal]
  · rw [handleTokenLocked_ok t db ev hrel hown hdst hamt hsup]
    simp [setBal, hne]

/-- C4 amended witness at the event `user = 4`, `destination = 5`. -/
theorem relayer_submits_destination_field_witness :
    lockedListenerCalls ⟨4, 70, 5⟩ = [ChainCall.mintWrapped 5 70] ∧
    burnedListenerCalls ⟨4, 70, 5⟩ = [ChainCall.release 5 70] ∧
    (handleTokenLocked (freshToken destBridgeAddr) dbDeployed ⟨4, 70, 5⟩).balanceOf 5 = 70 ∧
    (handleTokenLocked (freshToken destBridgeAddr) dbDeployed ⟨4, 70, 5⟩).balanceOf 4 = 0 := by
  obtain ⟨h1, h2, h3, h4⟩ := relayer_submits_destination_field ⟨4, 70, 5⟩ ⟨4, 70, 5⟩
    (freshToken destBridgeAddr) dbDeployed rfl rfl (by decide) (by decide) (by decide)
  exact ⟨h1, h2, h3, h4 (by decide)⟩

/-- C5: a user `U` holding at least 100 source tokens who approved the source
bridge for 100 calls `lock(100, U)`; the relayer processes the emitted
`TokenLocked(U, 100, U)` via `mintWrapped`.  Afterwards `U` holds 100 wrapped
tokens (starting from 0), `U`'s source balance decreased by exactly 100, and
the source bridge holds the 100 locked tokens (starting from 0). -/
theorem lock_then_mint_scenario (t w : ERC20) (db : BridgeDestinationChain)
    (U : Address) (hU0 : U ≠ 0) (hUb : U ≠ srcBridgeAddr)
    (hbal : 100 ≤ t.balanceOf U) (hallow : 100 ≤ t.allowance U srcBridgeAddr)
    (hbr : t.balanceOf srcBridgeAddr = 0)
    (hrel : db.relayer = relayerAddr) (hown : w.owner = destBridgeAddr)
    (hw0 : w.balanceOf U = 0) (hsup : w.totalSupply + 100 ≤ MAX_UINT256) :
    ∃ t2, BridgeSourceChain.lock t srcBridgeAddr U 100 U = .ok (t2, ⟨U, 100, U⟩) ∧
      t2.balanceOf U + 100 = t.balanceOf U ∧
      t2.balanceOf srcBridgeAddr = 100 ∧
      (handleTokenLocked w db ⟨U, 100, U⟩).balanceOf U = 100 := by
  obtain ⟨al, hTF⟩ := transferFrom_ok t srcBridgeAddr U srcBridgeAddr 100
    (by decide) hU0 (by decide) hbal hallow
  refine ⟨{ t with balanceOf := movedBal t.balanceOf U srcBridgeAddr 100, allowance := al },
    ?_, ?_, ?_, ?_⟩
  · unfold BridgeSourceChain.lock
    rw [if_neg (by decide : ¬(100 : Nat) = 0), hTF]
  · show movedBal t.balanceOf U srcBridgeAddr 100 U + 100 = t.balanceOf U
    simp [movedBal, setBal, hUb]
    omega
  · show movedBal t.balanceOf U srcBridgeAddr 100 srcBridgeAddr = 100
    simp [movedBal, setBal, Ne.symm hUb, hbr]
  · rw [handleTokenLocked_ok w db ⟨U, 100, U⟩ hrel hown hU0
      (by decide : (100 : Nat) ≠ 0) hsup]
    simp [setBal, hw0]

/-- C5 witness at the concrete funded user of `user-simulation.ts`. -/
theorem lock_then_mint_scenario_witness :
    ∃ t2, BridgeSourceChain.lock fundedSrcTok srcBridgeAddr userAddr 100 userAddr
        = .ok (t2, ⟨userAddr, 100, userAddr⟩) ∧
      t2.balanceOf userAddr + 100 = fundedSrcTok.balanceOf userAddr ∧
      t2.balanceOf srcBridgeAddr = 100 ∧
      (handleTokenLocked (freshToken destBridgeAddr) dbDeployed
          ⟨userAddr, 100, userAddr⟩).balanceOf userAddr = 100 :=
  lock_then_mint_scenario fundedSrcTok (freshToken destBridgeAddr) dbDeployed userAddr
    (by decide) (by decide) (by decide) (by decide) (by decide) rfl rfl (by decide) (by decide)

/-- C6: a user `U` holding 100 wrapped tokens, with 100 original tokens
locked in the source bridge, calls `burn(100, U)`; the relayer processes the
emitted `TokenBurned(U, 100, U)` via `release`.  Afterwards `U`'s wrapped
balance is 0, the bridge's locked balance fell from 100 to 0, and `U`'s
source balance increased by exactly 100: the round trip restores the original
balances. -/
theorem burn_then_release_roundtrip (t w : ERC20) (sb : BridgeSourceChain)
    (U : Address) (hU0 : U ≠ 0) (hUb : U ≠ srcBridgeAddr)
    (hw100 : w.balanceOf U = 100) (hwown : w.owner = destBridgeAddr)
    (hlocked : t.balanceOf srcBridgeAddr = 100)
    (hrel : sb.relayer = relayerAddr) :
    ∃ w2, BridgeDestinationChain.burn w destBridgeAddr U 100 U = .ok (w2, ⟨U, 100, U⟩) ∧
      w2.balanceOf U = 0 ∧
      (handleTokenBurned t sb ⟨U, 100, U⟩).balanceOf srcBridgeAddr = 0 ∧
      (handleTokenBurned t sb ⟨U, 100, U⟩).balanceOf U = t.balanceOf U + 100 := by
  refine ⟨{ w with balanceOf := setBal w.balanceOf U (w.balanceOf U - 100), totalSupply := w.totalSupply - 100 }, ?_, ?_, ?_, ?_⟩
  · exact burn_ok w U 100 U hwown hU0 (by decide) (le_of_eq hw100.symm)
  · show setBal w.balanceOf U (w.balanceOf U - 100) U = 0
    simp [setBal, hw100]
  · rw [handleTokenBurned_ok t sb ⟨U, 100, U⟩ hrel hU0
      (by decide : (100 : Nat) ≠ 0) (le_of_eq hlocked.symm)]
    simp [movedBal, setBal, Ne.symm hUb, hlocked]
  · rw [handleTokenBurned_ok t sb ⟨U, 100, U⟩ hrel hU0
      (by decide : (100 : Nat) ≠ 0) (le_of_eq hlocked.symm)]
    simp [movedBal, setBal, hUb]

/-- C6 witness at the concrete post-mint state. -/
theorem burn_then_release_roundtrip_witness :
    ∃ w2, BridgeDestinationChain.burn wrappedTok100 destBridgeAddr userAddr 100 userAddr
        = .ok (w2, ⟨userAddr, 100, userAddr⟩) ∧
      w2.balanceOf userAddr = 0 ∧
      (handleTokenBurned lockedSrcTok sbDeployed
          ⟨userAddr, 100, userAddr⟩).balanceOf srcBridgeAddr = 0 ∧
      (handleTokenBurned lockedSrcTok sbDeployed
          ⟨userAddr, 100, userAddr⟩).balanceOf userAddr = 100 :=
  burn_then_release_roundtrip lockedSrcTok wrappedTok100 sbDeployed userAddr
    (by decide) (by decide) (by decide) rfl (by decide) rfl

/-- C7 counterexample: with the relayer identity mismatched (the spec's
`ChainRejection` scenario), the destination `mintWrapped` call reverts; the
listener of `relayer.ts` makes exactly one submission attempt — never the two
or more a retry policy would make — leaves the destination chain unchanged,
and keeps no dead-letter record of the transfer (its whole output is the
unchanged token state: the transfer is dropped with only a console log), so
the claimed retry-then-DeadLetter behaviour does not hold. -/
theorem failed_mint_single_attempt_cx :
    BridgeDestinationChain.mintWrapped (freshToken destBridgeAddr) misconfiguredDb
        destBridgeAddr relayerAddr userAddr 100
      = .error "BridgeDest: Caller is not the relayer" ∧
    handleTokenLocked (freshToken destBridgeAddr) misconfiguredDb
        ⟨userAddr, 100, userAddr⟩ = freshToken destBridgeAddr ∧
    (lockedListenerCalls ⟨userAddr, 100, userAddr⟩).length = 1 ∧
    ¬2 ≤ (lockedListenerCalls ⟨userAddr, 100, userAddr⟩).length :=
  ⟨rfl, rfl, rfl, by decide⟩

/-- C7 amended: when the destination submission for a delivered event fails,
the listener catches the error, logs it, and drops the transfer: exactly one
submission attempt is made, no retry occurs, no dead-letter state exists, and
the acted-on chain is left unchanged (in either direction). -/
theorem failed_submission_logged_and_dropped (t t2 : ERC20)
    (db : BridgeDestinationChain) (sb : BridgeSourceChain)
    (ev : TokenLocked) (bv : TokenBurned) (m1 m2 : String)
    (h1 : BridgeDestinationChain.mintWrapped t db destBridgeAddr relayerAddr
          ev.destination ev.amount = .error m1)
    (h2 : BridgeSourceChain.release t2 sb srcBridgeAddr relayerAddr
          bv.destination bv.amount = .error m2) :
    handleTokenLocked t db ev = t ∧ (lockedListenerCalls ev).length = 1 ∧
    handleTokenBurned t2 sb bv = t2 ∧ (burnedListenerCalls bv).length = 1 :=
  ⟨handleTokenLocked_err t db ev m1 h1, rfl,
   handleTokenBurned_err t2 sb bv m2 h2, rfl⟩

/-- C7 amended witness at the misconfigured-relayer input. -/
theorem failed_submission_logged_and_dropped_witness :
    handleTokenLocked (freshToken destBridgeAddr) misconfiguredDb
        ⟨userAddr, 100, userAddr⟩ = freshToken destBridgeAddr ∧
    (lockedListenerCalls (⟨userAddr, 100, userAddr⟩ : TokenLocked)).length = 1 ∧
    handleTokenBurned lockedSrcTok misconfiguredSb
        ⟨userAddr, 100, userAddr⟩ = lockedSrcTok ∧
    (burnedListenerCalls (⟨userAddr, 100, userAddr⟩ : TokenBurned)).length = 1 :=
  failed_submission_logged_and_dropped (freshToken destBridgeAddr) lockedSrcTok
    misconfiguredDb misconfiguredSb ⟨userAddr, 100, userAddr⟩
    ⟨userAddr, 100, userAddr⟩ "BridgeDest: Caller is not the relayer"
    "BridgeSource: Caller is not the relayer" rfl rfl

/-- C8 counterexample: in the reachable state `traceW3` the `TokenLocked`
event was emitted at block 0 and the chain tip is still block 0, so the event
is 0 blocks deep — fewer than any positive `confirmationDepth` (the spec's
example is 5) — yet the very next step of the pipeline delivers it and the
destination mint executes (the user's wrapped balance becomes 100): the relay
pipeline acts on events below confirmation depth. -/
theorem event_processed_below_confirmation_depth_cx :
    Reachable traceW3 ∧
    traceW3.pendingLocked = [(⟨userAddr, 100, userAddr⟩, 0)] ∧
    traceW3.currentBlock = 0 ∧
    Step traceW3 traceW4 ∧
    traceW4.wrapTok.balanceOf userAddr = 100 ∧
    traceW4.pendingLocked = [] :=
  ⟨reachable_traceW3, by decide, rfl, step_traceW3_traceW4, by decide, rfl⟩

/-- C8 amended: the relayer has no confirmation-depth gate; a pending event
at the head of the queue can always be delivered immediately, whatever its
depth, without waiting for any further block. -/
theorem delivery_ignores_depth (w : World) (ev : TokenLocked) (blk : Nat)
    (rest : List (TokenLocked × Nat))
    (hq : w.pendingLocked = (ev, blk) :: rest) :
    ∃ w2, Step w w2 ∧ w2.pendingLocked = rest ∧ w2.currentBlock = w.currentBlock := by
  cases h : BridgeDestinationChain.mintWrapped w.wrapTok w.destBridge destBridgeAddr
      relayerAddr ev.destination ev.amount with
  | ok t => exact ⟨_, Step.deliverLockedOk w ev blk rest t hq h, rfl, rfl⟩
  | error m => exact ⟨_, Step.deliverLockedErr w ev blk rest m hq h, rfl, rfl⟩

/-- C8 amended witness: the freshly emitted event of `traceW3` (0 blocks
deep) is deliverable at once. -/
theorem delivery_ignores_depth_witness :
    ∃ w2, Step traceW3 w2 ∧ w2.pendingLocked = [] ∧
      w2.currentBlock = traceW3.currentBlock :=
  delivery_ignores_depth traceW3 ⟨userAddr, 100, userAddr⟩ 0 [] rfl

/-- C9: every amount-taking bridge entry point (`lock`, `release`,
`mintWrapped`, `burn`) reverts when called with amount 0, for every caller
and every state; the reverted call leaves all balances unchanged (an
`.error` result carries no state). -/
theorem zero_amount_reverts (t : ERC20) (sb : BridgeSourceChain)
    (db : BridgeDestinationChain) (a c u d : Address) :
    (BridgeSourceChain.lock t a c 0 d).isError = true ∧
    (BridgeSourceChain.release t sb a c u 0).isError = true ∧
    (BridgeDestinationChain.mintWrapped t db a c u 0).isError = true ∧
    (BridgeDestinationChain.burn t a c 0 d).isError = true := by
  refine ⟨rfl, ?_, ?_, rfl⟩
  · by_cases h : c = sb.relayer <;>
      simp [BridgeSourceChain.release, h, Except.isError]
  · by_cases h : c = db.relayer <;>
      simp [BridgeDestinationChain.mintWrapped, h, Except.isError]

/-- C10 counterexample: the token owner calls `burnFrom(address(0), 0)`;
address 0's balance (0) is not insufficient for the amount (0), yet the call
reverts with `ERC20InvalidSender` — so `burnFrom` does not revert only on
insufficient balance: OpenZeppelin's `_burn` also rejects the zero address. -/
theorem burnFrom_zero_address_cx :
    ERC20Mock.burnFrom (freshToken ownerAddr) ownerAddr 0 0
      = .error "ERC20InvalidSender" ∧
    (freshToken ownerAddr).balanceOf 0 = 0 ∧
    ¬(freshToken ownerAddr).balanceOf 0 < 0 :=
  ⟨rfl, rfl, by decide⟩

/-- C10 amended: `burnFrom` neither checks nor decrements any allowance —
called by the token owner on a nonzero `from` it burns unconditionally,
reverting only on insufficient balance or the zero address, and the allowance
map of the result is the input's — and consequently `burn` succeeds for any
nonzero caller holding enough wrapped tokens even with zero allowance granted
to the bridge. -/
theorem burnFrom_ignores_allowance :
    (∀ (tok : ERC20) (s fromA : Address) (a : Nat),
      s = tok.owner → fromA ≠ 0 → a ≤ tok.balanceOf fromA →
      ERC20Mock.burnFrom tok s fromA a
        = .ok { tok with
            balanceOf := setBal tok.balanceOf fromA (tok.balanceOf fromA - a),
            totalSupply := tok.totalSupply - a }) ∧
    (∀ (w : ERC20) (caller : Address) (a : Nat) (d : Address),
      w.owner = destBridgeAddr → caller ≠ 0 → 0 < a → a ≤ w.balanceOf caller →
      w.allowance caller destBridgeAddr = 0 →
      BridgeDestinationChain.burn w destBridgeAddr caller a d
        = .ok ({ w with
            balanceOf := setBal w.balanceOf caller (w.balanceOf caller - a),
            totalSupply := w.totalSupply - a }, ⟨caller, a, d⟩)) :=
  ⟨fun tok s fromA a hs hf hb => burnFrom_ok tok s fromA a hs hf hb,
   fun w caller a d ho hc ha hb _ =>
     burn_ok w caller a d ho hc (Nat.pos_iff_ne_zero.mp ha) hb⟩

/-- C10 amended witness: the owner burns 40 from the funded user without any
allowance, and the user burns 100 wrapped through the bridge with zero
allowance granted to it. -/
theorem burnFrom_ignores_allowance_witness :
    ERC20Mock.burnFrom wrappedTok100 destBridgeAddr userAddr 40
      = .ok { wrappedTok100 with
          balanceOf := setBal wrappedTok100.balanceOf userAddr
            (wrappedTok100.balanceOf userAddr - 40),
          totalSupply := wrappedTok100.totalSupply - 40 } ∧
    BridgeDestinationChain.burn wrappedTok100 destBridgeAddr userAddr 100 userAddr
      = .ok ({ wrappedTok100 with
          balanceOf := setBal wrappedTok100.balanceOf userAddr
            (wrappedTok100.balanceOf userAddr - 100),
          totalSupply := wrappedTok100.totalSupply - 100 },
        ⟨userAddr, 100, userAddr⟩) :=
  ⟨burnFrom_ignores_allowance.1 wrappedTok100 destBridgeAddr userAddr 40
      rfl (by decide) (by decide),
   burnFrom_ignores_allowance.2 wrappedTok100 userAddr 100 userAddr
      rfl (by decide) (by decide) (by decide) (by decide)⟩
